import Mathlib

/-!
Shallow embedding of the openwx weather-client core (src/types.rs, src/apis.rs).

The Rust code stores headings and coordinates as `f32` and only ever compares
them against decimal constants, adds 180 and subtracts 360.  We embed an
`f32` value as either NaN or a finite value taken as an exact rational (`F`):
comparisons follow IEEE semantics (every comparison involving NaN is false;
comparisons of finite floats are exact order comparisons) and the two
arithmetic operations round their exact result to nearest, ties to even,
onto the binary32 grid (`round32`), as IEEE-754 prescribes; NaN propagates
through arithmetic.
-/

namespace OpenWx

/-- Model of an `f32` value: NaN or a finite value, taken as an exact rational. -/
inductive F where
  | nan : F
  | fin : ℚ → F
deriving DecidableEq, Repr

/-- IEEE `<` on the model: false whenever either side is NaN. -/
def F.lt : F → F → Prop
  | .fin a, .fin b => a < b
  | _, _ => False

/-- IEEE `>` on the model: false whenever either side is NaN. -/
def F.gt : F → F → Prop
  | .fin a, .fin b => b < a
  | _, _ => False

/-- IEEE `>=` on the model: false whenever either side is NaN. -/
def F.ge : F → F → Prop
  | .fin a, .fin b => b ≤ a
  | _, _ => False

instance F.lt.decidable : (a b : F) → Decidable (F.lt a b)
  | .fin a, .fin b => inferInstanceAs (Decidable (a < b))
  | .nan, .nan => isFalse (fun h => h)
  | .nan, .fin _ => isFalse (fun h => h)
  | .fin _, .nan => isFalse (fun h => h)

instance F.gt.decidable : (a b : F) → Decidable (F.gt a b)
  | .fin a, .fin b => inferInstanceAs (Decidable (b < a))
  | .nan, .nan => isFalse (fun h => h)
  | .nan, .fin _ => isFalse (fun h => h)
  | .fin _, .nan => isFalse (fun h => h)

instance F.ge.decidable : (a b : F) → Decidable (F.ge a b)
  | .fin a, .fin b => inferInstanceAs (Decidable (b ≤ a))
  | .nan, .nan => isFalse (fun h => h)
  | .nan, .fin _ => isFalse (fun h => h)
  | .fin _, .nan => isFalse (fun h => h)

/-- The IEEE-754 binary32 unit in the last place at a positive value `q`:
`2 ^ (floor (log2 q) - 23)` (24-bit significands).  This is the grid spacing
of binary32 for every positive value in the normal range, which covers all
values reachable inside `blowing_towards`. -/
def ulp32 (q : ℚ) : ℚ := 2 ^ (Int.log 2 q - 23)

/-- Round to nearest, ties to even, onto the binary32 grid: the IEEE-754
default rounding that every Rust `f32` arithmetic operation applies to its
exact result.  Faithful for results that are zero or positive and in the
normal range; overflow, subnormal and negative results do not arise on the
code paths embedded here (sums lie in `[180, 540)`, differences in
`[0, 180)`). -/
def round32 (q : ℚ) : ℚ :=
  let u : ℚ := ulp32 q
  let n : ℤ := ⌊q / u⌋
  let r : ℚ := q - n * u
  if 2 * r < u then n * u
  else if u < 2 * r then (n + 1) * u
  else if Even n then n * u else (n + 1) * u

/-- f32 addition: the exact sum, rounded to the binary32 grid; NaN
propagates. -/
def F.add32 : F → F → F
  | .fin a, .fin b => .fin (round32 (a + b))
  | _, _ => .nan

/-- f32 subtraction: the exact difference, rounded to the binary32 grid; NaN
propagates. -/
def F.sub32 : F → F → F
  | .fin a, .fin b => .fin (round32 (a - b))
  | _, _ => .nan

/-- Points on a 16-wind compass rose (src/types.rs `CompassPoint`). -/
inductive CompassPoint where
  | North
  | NorthNorthEast
  | NorthEast
  | EastNorthEast
  | East
  | EastSouthEast
  | SouthEast
  | SouthSouthEast
  | South
  | SouthSouthWest
  | SouthWest
  | WestSouthWest
  | West
  | WestNorthWest
  | NorthWest
  | NorthNorthWest
deriving DecidableEq, Repr

/-- Wind direction in degrees clockwise from true North (src/types.rs,
tuple struct `WindDirection(f32)`). -/
structure WindDirection where
  deg : F
deriving DecidableEq, Repr

/-- Error type for wind-direction validation (src/types.rs `WindDirectionError`). -/
inductive WindDirectionError where
  | InvalidDirection : F → WindDirectionError
deriving DecidableEq, Repr

/-- Embedding of `WindDirection::new_checked`: rejects `deg < 0 || deg >= 360`
(IEEE comparisons, so NaN passes both tests and is accepted). -/
def WindDirection.new_checked (deg : F) : Except WindDirectionError WindDirection :=
  if deg.lt (F.fin 0) ∨ deg.ge (F.fin 360) then
    .error (.InvalidDirection deg)
  else
    .ok ⟨deg⟩

/-- Embedding of `WindDirection::compass_point`: a Rust `match` on the inner
`f32` with fifteen half-open range patterns `lo..hi` and a catch-all arm.
A range pattern `lo..hi` matches exactly when `lo <= x && x < hi` under IEEE
comparisons, so a NaN scrutinee matches none of them and falls through to the
catch-all, as does any finite value outside `[0, 337.5)`. -/
def WindDirection.compass_point (w : WindDirection) : CompassPoint :=
  match w.deg with
  | .nan => CompassPoint.NorthNorthWest
  | .fin x =>
    if 0 ≤ x ∧ x < 22.5 then CompassPoint.North
    else if 22.5 ≤ x ∧ x < 45 then CompassPoint.NorthNorthEast
    else if 45 ≤ x ∧ x < 67.5 then CompassPoint.NorthEast
    else if 67.5 ≤ x ∧ x < 90 then CompassPoint.EastNorthEast
    else if 90 ≤ x ∧ x < 112.5 then CompassPoint.East
    else if 112.5 ≤ x ∧ x < 135 then CompassPoint.EastSouthEast
    else if 135 ≤ x ∧ x < 157.5 then CompassPoint.SouthEast
    else if 157.5 ≤ x ∧ x < 180 then CompassPoint.SouthSouthEast
    else if 180 ≤ x ∧ x < 202.5 then CompassPoint.South
    else if 202.5 ≤ x ∧ x < 225 then CompassPoint.SouthSouthWest
    else if 225 ≤ x ∧ x < 247.5 then CompassPoint.SouthWest
    else if 247.5 ≤ x ∧ x < 270 then CompassPoint.WestSouthWest
    else if 270 ≤ x ∧ x < 292.5 then CompassPoint.West
    else if 292.5 ≤ x ∧ x < 315 then CompassPoint.WestNorthWest
    else if 315 ≤ x ∧ x < 337.5 then CompassPoint.NorthWest
    else CompassPoint.NorthNorthWest

/-- Embedding of `WindDirection::blowing_towards`: the f32 addition
`self.0 + 180.0` (which rounds its exact result to the binary32 grid), then
the f32 subtraction of 360.0 when the rounded sum is `>= 360.0` (also
rounded, although on every reachable input the difference is exactly
representable, see `round32_sub_360`), and finally the compass
classification of the result. -/
def WindDirection.blowing_towards (w : WindDirection) : CompassPoint :=
  let tmp := w.deg.add32 (F.fin 180)
  let towards := if tmp.ge (F.fin 360) then tmp.sub32 (F.fin 360) else tmp
  WindDirection.compass_point ⟨towards⟩

/-- Geodetic coordinates, latitude and longitude (src/types.rs `GeodeticCoords`). -/
structure GeodeticCoords where
  lat : F
  lon : F
deriving DecidableEq, Repr

/-- Error type for coordinate validation (src/types.rs `GeodeticCoordsError`). -/
inductive GeodeticCoordsError where
  | LatitudeOutOfRange : F → GeodeticCoordsError
  | LongitudeOutOfRange : F → GeodeticCoordsError
deriving DecidableEq, Repr

/-- Embedding of `GeodeticCoords::new_checked`: latitude is rejected when
`lat < -90 || lat > 90`, then longitude when `lon < -180 || lon > 180`
(IEEE comparisons, so NaN passes every test and is accepted). -/
def GeodeticCoords.new_checked (lat lon : F) :
    Except GeodeticCoordsError GeodeticCoords :=
  if lat.lt (F.fin (-90)) ∨ lat.gt (F.fin 90) then
    .error (.LatitudeOutOfRange lat)
  else if lon.lt (F.fin (-180)) ∨ lon.gt (F.fin 180) then
    .error (.LongitudeOutOfRange lon)
  else
    .ok ⟨lat, lon⟩

/-- The 16 compass points in clockwise order from true North, indexed by
sector number (sector k covers `[22.5*k, 22.5*(k+1))`); stated from the
spec's boundary list. -/
def roseN : ℕ → CompassPoint
  | 0 => CompassPoint.North
  | 1 => CompassPoint.NorthNorthEast
  | 2 => CompassPoint.NorthEast
  | 3 => CompassPoint.EastNorthEast
  | 4 => CompassPoint.East
  | 5 => CompassPoint.EastSouthEast
  | 6 => CompassPoint.SouthEast
  | 7 => CompassPoint.SouthSouthEast
  | 8 => CompassPoint.South
  | 9 => CompassPoint.SouthSouthWest
  | 10 => CompassPoint.SouthWest
  | 11 => CompassPoint.WestSouthWest
  | 12 => CompassPoint.West
  | 13 => CompassPoint.WestNorthWest
  | 14 => CompassPoint.NorthWest
  | _ => CompassPoint.NorthNorthWest

/-- Real-number modulo, `a mod b = a - b * floor (a / b)`, used to state the
spec's `(h + 180) mod 360`. -/
def rmod (a b : ℚ) : ℚ := a - b * ⌊a / b⌋

/-- Untyped JSON tree, standing in for `serde_json::Value` (numbers as exact
rationals; object fields as an association list). -/
inductive Json where
  | null : Json
  | bool : Bool → Json
  | num : ℚ → Json
  | str : String → Json
  | arr : List Json → Json
  | obj : List (String × Json) → Json

/-- Field lookup on a JSON object; `none` on non-objects and missing keys. -/
def Json.getField : Json → String → Option Json
  | .obj fields, key => fields.lookup key
  | _, _ => none

/-- Errors at the OpenWeather API boundary (src/apis.rs `OpenWxError`).
`ResponseParseError` carries the original parsed-but-untyped JSON value
together with the underlying mapping error; `MalformedResponseError` carries
only the JSON syntax error; `HttpGetError` wraps a transport failure.
Underlying `serde_json::Error` / `reqwest::Error` values are modelled as
opaque message strings. -/
inductive OpenWxError where
  | ResponseParseError (input_json : Json) (parse_error : String) : OpenWxError
  | MalformedResponseError : String → OpenWxError
  | HttpGetError : String → OpenWxError

/-- Embedding of the parse phase of `open_weather_request` (src/apis.rs lines
46-56), after the HTTP GET has produced a body `text`.  The two serde
operations are parameters: `from_str` is `serde_json::from_str` (text to
untyped JSON) and `from_value` is `serde_json::from_value` (untyped JSON to
the typed snapshot `α`).  A `from_str` failure is converted by `?` and the
`#[from]` attribute into `MalformedResponseError`; a `from_value` failure is
mapped into `ResponseParseError` carrying the (cloned) untyped JSON value. -/
def open_weather_parse {α : Type} (from_str : String → Except String Json)
    (from_value : Json → Except String α) (text : String) :
    Except OpenWxError α :=
  match from_str text with
  | .error e => .error (.MalformedResponseError e)
  | .ok response_json =>
    match from_value response_json with
    | .error e => .error (.ResponseParseError response_json e)
    | .ok parsed => .ok parsed

/-- A fixed timezone offset, seconds east of UTC (chrono `FixedOffset`). -/
structure FixedOffset where
  local_minus_utc : Int
deriving DecidableEq, Repr

/-- Modelled from the chrono dependency (not part of this repository):
`FixedOffset::east_opt(secs)` returns `Some` exactly when the offset is
strictly less than one day in magnitude, `-86_400 < secs < 86_400`. -/
def FixedOffset.east_opt (secs : Int) : Option FixedOffset :=
  if -86400 < secs ∧ secs < 86400 then some ⟨secs⟩ else none

/-- Embedding of `from_utc_shift` (src/types.rs): the `timezone` field
deserializer, applied to the already-deserialized `i32` number of seconds
shifted from UTC.  `FixedOffset::east_opt` failure becomes a custom serde
error, which fails the whole parse. -/
def from_utc_shift (tz_shift : Int) : Except String FixedOffset :=
  match FixedOffset.east_opt tz_shift with
  | some fixed_offset => .ok fixed_offset
  | none => .error "invalid timezone shift from UTC"

/-- A UTC instant (chrono `DateTime<Utc>`), as seconds since the UNIX epoch. -/
structure DateTimeUtc where
  timestamp : Int
deriving DecidableEq, Repr

/-- An instant paired with a display timezone (chrono `DateTime<FixedOffset>`). -/
structure DateTimeFixed where
  timestamp : Int
  offset : FixedOffset
deriving DecidableEq, Repr

/-- Modelled from the chrono dependency (not part of this repository):
`DateTime::with_timezone` changes only the display timezone, preserving the
absolute instant. -/
def DateTimeUtc.with_timezone (dt : DateTimeUtc) (tz : FixedOffset) :
    DateTimeFixed :=
  ⟨dt.timestamp, tz⟩

/-- The local civil ("wall-clock") time of a timezone-aware instant, as
seconds since the UNIX epoch: instant plus seconds east of UTC.  This is how
chrono renders a `DateTime<FixedOffset>`. -/
def DateTimeFixed.localCivilSeconds (dt : DateTimeFixed) : Int :=
  dt.timestamp + dt.offset.local_minus_utc

/-- Weather condition descriptor (src/types.rs `OWWeather`). -/
structure OWWeather where
  id : ℕ
  main : String
  description : String
  icon : String

/-- Main atmospheric readings (src/types.rs `OWMain`). -/
structure OWMain where
  temp : F
  feels_like : F
  pressure : F
  humidity : F
  temp_min : F
  temp_max : F
  sea_level : F
  grnd_level : F

/-- Wind readings (src/types.rs `OWWind`); `deg` has already been validated
into a `WindDirection` by the field deserializer. -/
structure OWWind where
  speed : F
  deg : WindDirection
  gust : Option F

/-- Cloud cover (src/types.rs `OWClouds`). -/
structure OWClouds where
  all : F

/-- Rain accumulation over the last hour (src/types.rs `OWRain`). -/
structure OWRain where
  _1h : F

/-- Snow accumulation over the last hour (src/types.rs `OWSnow`). -/
structure OWSnow where
  _1h : F

/-- The sys block (src/types.rs `OWSys`); sunrise and sunset have already
been converted to UTC instants by the field deserializer. -/
structure OWSys where
  country : String
  sunrise : DateTimeUtc
  sunset : DateTimeUtc

/-- The typed current-weather response (src/types.rs
`OWCurrentWeatherResponse`); `timezone` has already been validated into a
`FixedOffset` by the `from_utc_shift` field deserializer. -/
structure OWCurrentWeatherResponse where
  coord : GeodeticCoords
  weather : List OWWeather
  main : OWMain
  visibility : F
  wind : OWWind
  clouds : OWClouds
  rain : Option OWRain
  snow : Option OWSnow
  dt : ℕ
  sys : OWSys
  timezone : FixedOffset
  id : ℕ
  name : String

/-- Embedding of `OWCurrentWeatherResponse::sunrise_local`: the stored UTC
sunrise instant rendered in the snapshot's own timezone. -/
def OWCurrentWeatherResponse.sunrise_local (r : OWCurrentWeatherResponse) :
    DateTimeFixed :=
  r.sys.sunrise.with_timezone r.timezone

/-- Embedding of `OWCurrentWeatherResponse::sunset_local`: the stored UTC
sunset instant rendered in the snapshot's own timezone. -/
def OWCurrentWeatherResponse.sunset_local (r : OWCurrentWeatherResponse) :
    DateTimeFixed :=
  r.sys.sunset.with_timezone r.timezone

/-- The sample document from the `parse_open_weather_response` test in
src/types.rs, as a typed snapshot (timezone 3600, sunrise 1763100641,
sunset 1763135429, wind deg 202, gust 3.51, no rain or snow). -/
def sampleResponse : OWCurrentWeatherResponse where
  coord := ⟨F.fin 44.34, F.fin 10.99⟩
  weather := [⟨803, "Clouds", "broken clouds", "04n"⟩]
  main := ⟨F.fin 281.29, F.fin 279.63, F.fin 1024, F.fin 95,
           F.fin 279.38, F.fin 281.29, F.fin 1024, F.fin 956⟩
  visibility := F.fin 10000
  wind := ⟨F.fin 2.69, ⟨F.fin 202⟩, some (F.fin 3.51)⟩
  clouds := ⟨F.fin 78⟩
  rain := none
  snow := none
  dt := 1763077522
  sys := ⟨"IT", ⟨1763100641⟩, ⟨1763135429⟩⟩
  timezone := ⟨3600⟩
  id := 3163858
  name := "Zocca"

/-- Sector lemma: a finite heading in `[0, 22.5)` classifies as North. -/
lemma compass_point_band0 (q : ℚ) (h1 : 0 ≤ q) (h2 : q < 22.5) :
    WindDirection.compass_point ⟨F.fin q⟩ = CompassPoint.North := by
  simp only [WindDirection.compass_point]
  rw [if_pos ⟨by linarith, by linarith⟩]

/-- Sector lemma: a finite heading in `[22.5, 45)` classifies as NorthNorthEast. -/
lemma compass_point_band1 (q : ℚ) (h1 : 22.5 ≤ q) (h2 : q < 45) :
    WindDirection.compass_point ⟨F.fin q⟩ = CompassPoint.NorthNorthEast := by
  simp only [WindDirection.compass_point]
  rw [if_neg (by rintro ⟨-, h⟩; linarith),
      if_pos ⟨by linarith, by linarith⟩]

/-- Sector lemma: a finite heading in `[45, 67.5)` classifies as NorthEast. -/
lemma compass_point_band2 (q : ℚ) (h1 : 45 ≤ q) (h2 : q < 67.5) :
    WindDirection.compass_point ⟨F.fin q⟩ = CompassPoint.NorthEast := by
  simp only [WindDirection.compass_point]
  rw [if_neg (by rintro ⟨-, h⟩; linarith),
      if_neg (by rintro ⟨-, h⟩; linarith),
      if_pos ⟨by linarith, by linarith⟩]

/-- Sector lemma: a finite heading in `[67.5, 90)` classifies as EastNorthEast. -/
lemma compass_point_band3 (q : ℚ) (h1 : 67.5 ≤ q) (h2 : q < 90) :
    WindDirection.compass_point ⟨F.fin q⟩ = CompassPoint.EastNorthEast := by
  simp only [WindDirection.compass_point]
  rw [if_neg (by rintro ⟨-, h⟩; linarith),
      if_neg (by rintro ⟨-, h⟩; linarith),
      if_neg (by rintro ⟨-, h⟩; linarith),
      if_pos ⟨by linarith, by linarith⟩]

/-- Sector lemma: a finite heading in `[90, 112.5)` classifies as East. -/
lemma compass_point_band4 (q : ℚ) (h1 : 90 ≤ q) (h2 : q < 112.5) :
    WindDirection.compass_point ⟨F.fin q⟩ = CompassPoint.East := by
  simp only [WindDirection.compass_point]
  rw [if_neg (by rintro ⟨-, h⟩; linarith),
      if_neg (by rintro ⟨-, h⟩; linarith),
      if_neg (by rintro ⟨-, h⟩; linarith),
      if_neg (by rintro ⟨-, h⟩; linarith),
      if_pos ⟨by linarith, by linarith⟩]

/-- Sector lemma: a finite heading in `[112.5, 135)` classifies as EastSouthEast. -/
lemma compass_point_band5 (q : ℚ) (h1 : 112.5 ≤ q) (h2 : q < 135) :
    WindDirection.compass_point ⟨F.fin q⟩ = CompassPoint.EastSouthEast := by
  simp only [WindDirection.compass_point]
  rw [if_neg (by rintro ⟨-, h⟩; linarith),
      if_neg (by rintro ⟨-, h⟩; linarith),
      if_neg (by rintro ⟨-, h⟩; linarith),
      if_neg (by rintro ⟨-, h⟩; linarith),
      if_neg (by rintro ⟨-, h⟩; linarith),
      if_pos ⟨by linarith, by linarith⟩]

/-- Sector lemma: a finite heading in `[135, 157.5)` classifies as SouthEast. -/
lemma compass_point_band6 (q : ℚ) (h1 : 135 ≤ q) (h2 : q < 157.5) :
    WindDirection.compass_point ⟨F.fin q⟩ = CompassPoint.SouthEast := by
  simp only [WindDirection.compass_point]
  rw [if_neg (by rintro ⟨-, h⟩; linarith),
      if_neg (by rintro ⟨-, h⟩; linarith),
      if_neg (by rintro ⟨-, h⟩; linarith),
      if_neg (by rintro ⟨-, h⟩; linarith),
      if_neg (by rintro ⟨-, h⟩; linarith),
      if_neg (by rintro ⟨-, h⟩; linarith),
      if_pos ⟨by linarith, by linarith⟩]

/-- Sector lemma: a finite heading in `[157.5, 180)` classifies as SouthSouthEast. -/
lemma compass_point_band7 (q : ℚ) (h1 : 157.5 ≤ q) (h2 : q < 180) :
    WindDirection.compass_point ⟨F.fin q⟩ = CompassPoint.SouthSouthEast := by
  simp only [WindDirection.compass_point]
  rw [if_neg (by rintro ⟨-, h⟩; linarith),
      if_neg (by rintro ⟨-, h⟩; linarith),
      if_neg (by rintro ⟨-, h⟩; linarith),
      if_neg (by rintro ⟨-, h⟩; linarith),
      if_neg (by rintro ⟨-, h⟩; linarith),
      if_neg (by rintro ⟨-, h⟩; linarith),
      if_neg (by rintro ⟨-, h⟩; linarith),
      if_pos ⟨by linarith, by linarith⟩]

/-- Sector lemma: a finite heading in `[180, 202.5)` classifies as South. -/
lemma compass_point_band8 (q : ℚ) (h1 : 180 ≤ q) (h2 : q < 202.5) :
    WindDirection.compass_point ⟨F.fin q⟩ = CompassPoint.South := by
  simp only [WindDirection.compass_point]
  rw [if_neg (by rintro ⟨-, h⟩; linarith),
      if_neg (by rintro ⟨-, h⟩; linarith),
      if_neg (by rintro ⟨-, h⟩; linarith),
      if_neg (by rintro ⟨-, h⟩; linarith),
      if_neg (by rintro ⟨-, h⟩; linarith),
      if_neg (by rintro ⟨-, h⟩; linarith),
      if_neg (by rintro ⟨-, h⟩; linarith),
      if_neg (by rintro ⟨-, h⟩; linarith),
      if_pos ⟨by linarith, by linarith⟩]

/-- Sector lemma: a finite heading in `[202.5, 225)` classifies as SouthSouthWest. -/
lemma compass_point_band9 (q : ℚ) (h1 : 202.5 ≤ q) (h2 : q < 225) :
    WindDirection.compass_point ⟨F.fin q⟩ = CompassPoint.SouthSouthWest := by
  simp only [WindDirection.compass_point]
  rw [if_neg (by rintro ⟨-, h⟩; linarith),
      if_neg (by rintro ⟨-, h⟩; linarith),
      if_neg (by rintro ⟨-, h⟩; linarith),
      if_neg (by rintro ⟨-, h⟩; linarith),
      if_neg (by rintro ⟨-, h⟩; linarith),
      if_neg (by rintro ⟨-, h⟩; linarith),
      if_neg (by rintro ⟨-, h⟩; linarith),
      if_neg (by rintro ⟨-, h⟩; linarith),
      if_neg (by rintro ⟨-, h⟩; linarith),
      if_pos ⟨by linarith, by linarith⟩]

/-- Sector lemma: a finite heading in `[225, 247.5)` classifies as SouthWest. -/
lemma compass_point_band10 (q : ℚ) (h1 : 225 ≤ q) (h2 : q < 247.5) :
    WindDirection.compass_point ⟨F.fin q⟩ = CompassPoint.SouthWest := by
  simp only [WindDirection.compass_point]
  rw [if_neg (by rintro ⟨-, h⟩; linarith),
      if_neg (by rintro ⟨-, h⟩; linarith),
      if_neg (by rintro ⟨-, h⟩; linarith),
      if_neg (by rintro ⟨-, h⟩; linarith),
      if_neg (by rintro ⟨-, h⟩; linarith),
      if_neg (by rintro ⟨-, h⟩; linarith),
      if_neg (by rintro ⟨-, h⟩; linarith),
      if_neg (by rintro ⟨-, h⟩; linarith),
      if_neg (by rintro ⟨-, h⟩; linarith),
      if_neg (by rintro ⟨-, h⟩; linarith),
      if_pos ⟨by linarith, by linarith⟩]

/-- Sector lemma: a finite heading in `[247.5, 270)` classifies as WestSouthWest. -/
lemma compass_point_band11 (q : ℚ) (h1 : 247.5 ≤ q) (h2 : q < 270) :
    WindDirection.compass_point ⟨F.fin q⟩ = CompassPoint.WestSouthWest := by
  simp only [WindDirection.compass_point]
  rw [if_neg (by rintro ⟨-, h⟩; linarith),
      if_neg (by rintro ⟨-, h⟩; linarith),
      if_neg (by rintro ⟨-, h⟩; linarith),
      if_neg (by rintro ⟨-, h⟩; linarith),
      if_neg (by rintro ⟨-, h⟩; linarith),
      if_neg (by rintro ⟨-, h⟩; linarith),
      if_neg (by rintro ⟨-, h⟩; linarith),
      if_neg (by rintro ⟨-, h⟩; linarith),
      if_neg (by rintro ⟨-, h⟩; linarith),
      if_neg (by rintro ⟨-, h⟩; linarith),
      if_neg (by rintro ⟨-, h⟩; linarith),
      if_pos ⟨by linarith, by linarith⟩]

/-- Sector lemma: a finite heading in `[270, 292.5)` classifies as West. -/
lemma compass_point_band12 (q : ℚ) (h1 : 270 ≤ q) (h2 : q < 292.5) :
    WindDirection.compass_point ⟨F.fin q⟩ = CompassPoint.West := by
  simp only [WindDirection.compass_point]
  rw [if_neg (by rintro ⟨-, h⟩; linarith),
      if_neg (by rintro ⟨-, h⟩; linarith),
      if_neg (by rintro ⟨-, h⟩; linarith),
      if_neg (by rintro ⟨-, h⟩; linarith),
      if_neg (by rintro ⟨-, h⟩; linarith),
      if_neg (by rintro ⟨-, h⟩; linarith),
      if_neg (by rintro ⟨-, h⟩; linarith),
      if_neg (by rintro ⟨-, h⟩; linarith),
      if_neg (by rintro ⟨-, h⟩; linarith),
      if_neg (by rintro ⟨-, h⟩; linarith),
      if_neg (by rintro ⟨-, h⟩; linarith),
      if_neg (by rintro ⟨-, h⟩; linarith),
      if_pos ⟨by linarith, by linarith⟩]

/-- Sector lemma: a finite heading in `[292.5, 315)` classifies as WestNorthWest. -/
lemma compass_point_band13 (q : ℚ) (h1 : 292.5 ≤ q) (h2 : q < 315) :
    WindDirection.compass_point ⟨F.fin q⟩ = CompassPoint.WestNorthWest := by
  simp only [WindDirection.compass_point]
  rw [if_neg (by rintro ⟨-, h⟩; linarith),
      if_neg (by rintro ⟨-, h⟩; linarith),
      if_neg (by rintro ⟨-, h⟩; linarith),
      if_neg (by rintro ⟨-, h⟩; linarith),
      if_neg (by rintro ⟨-, h⟩; linarith),
      if_neg (by rintro ⟨-, h⟩; linarith),
      if_neg (by rintro ⟨-, h⟩; linarith),
      if_neg (by rintro ⟨-, h⟩; linarith),
      if_neg (by rintro ⟨-, h⟩; linarith),
      if_neg (by rintro ⟨-, h⟩; linarith),
      if_neg (by rintro ⟨-, h⟩; linarith),
      if_neg (by rintro ⟨-, h⟩; linarith),
      if_neg (by rintro ⟨-, h⟩; linarith),
      if_pos ⟨by linarith, by linarith⟩]

/-- Sector lemma: a finite heading in `[315, 337.5)` classifies as NorthWest. -/
lemma compass_point_band14 (q : ℚ) (h1 : 315 ≤ q) (h2 : q < 337.5) :
    WindDirection.compass_point ⟨F.fin q⟩ = CompassPoint.NorthWest := by
  simp only [WindDirection.compass_point]
  rw [if_neg (by rintro ⟨-, h⟩; linarith),
      if_neg (by rintro ⟨-, h⟩; linarith),
      if_neg (by rintro ⟨-, h⟩; linarith),
      if_neg (by rintro ⟨-, h⟩; linarith),
      if_neg (by rintro ⟨-, h⟩; linarith),
      if_neg (by rintro ⟨-, h⟩; linarith),
      if_neg (by rintro ⟨-, h⟩; linarith),
      if_neg (by rintro ⟨-, h⟩; linarith),
      if_neg (by rintro ⟨-, h⟩; linarith),
      if_neg (by rintro ⟨-, h⟩; linarith),
      if_neg (by rintro ⟨-, h⟩; linarith),
      if_neg (by rintro ⟨-, h⟩; linarith),
      if_neg (by rintro ⟨-, h⟩; linarith),
      if_neg (by rintro ⟨-, h⟩; linarith),
      if_pos ⟨by linarith, by linarith⟩]

/-- Sector lemma: a finite heading in `[337.5, 360)` classifies as NorthNorthWest. -/
lemma compass_point_band15 (q : ℚ) (h1 : 337.5 ≤ q) (_h2 : q < 360) :
    WindDirection.compass_point ⟨F.fin q⟩ = CompassPoint.NorthNorthWest := by
  simp only [WindDirection.compass_point]
  rw [if_neg (by rintro ⟨-, h⟩; linarith),
      if_neg (by rintro ⟨-, h⟩; linarith),
      if_neg (by rintro ⟨-, h⟩; linarith),
      if_neg (by rintro ⟨-, h⟩; linarith),
      if_neg (by rintro ⟨-, h⟩; linarith),
      if_neg (by rintro ⟨-, h⟩; linarith),
      if_neg (by rintro ⟨-, h⟩; linarith),
      if_neg (by rintro ⟨-, h⟩; linarith),
      if_neg (by rintro ⟨-, h⟩; linarith),
      if_neg (by rintro ⟨-, h⟩; linarith),
      if_neg (by rintro ⟨-, h⟩; linarith),
      if_neg (by rintro ⟨-, h⟩; linarith),
      if_neg (by rintro ⟨-, h⟩; linarith),
      if_neg (by rintro ⟨-, h⟩; linarith),
      if_neg (by rintro ⟨-, h⟩; linarith)]


/-- C1 (amended): for every finite heading, `compass_point` realises the
16-sector partition of `[0, 360)`: whenever `22.5*k <= h < 22.5*(k+1)` for a
sector index `k < 16`, the result is the k-th compass point in clockwise
order from North (North, NNE, NE, ENE, East, ESE, SE, SSE, South, SSW, SW,
WSW, West, WNW, NW, NNW).  In particular `compass_point 202 = South` (not
SouthSouthWest as the original claim said), `compass_point 0 = North` and
`compass_point 359.9 = NorthNorthWest`. -/
theorem C1_compass_partition (q : ℚ) (k : ℕ) (hk : k < 16)
    (h1 : 22.5 * k ≤ q) (h2 : q < 22.5 * (k + 1)) :
    WindDirection.compass_point ⟨F.fin q⟩ = roseN k := by
  interval_cases k
  · exact compass_point_band0 q (by push_cast at h1; linarith) (by push_cast at h2; linarith)
  · exact compass_point_band1 q (by push_cast at h1; linarith) (by push_cast at h2; linarith)
  · exact compass_point_band2 q (by push_cast at h1; linarith) (by push_cast at h2; linarith)
  · exact compass_point_band3 q (by push_cast at h1; linarith) (by push_cast at h2; linarith)
  · exact compass_point_band4 q (by push_cast at h1; linarith) (by push_cast at h2; linarith)
  · exact compass_point_band5 q (by push_cast at h1; linarith) (by push_cast at h2; linarith)
  · exact compass_point_band6 q (by push_cast at h1; linarith) (by push_cast at h2; linarith)
  · exact compass_point_band7 q (by push_cast at h1; linarith) (by push_cast at h2; linarith)
  · exact compass_point_band8 q (by push_cast at h1; linarith) (by push_cast at h2; linarith)
  · exact compass_point_band9 q (by push_cast at h1; linarith) (by push_cast at h2; linarith)
  · exact compass_point_band10 q (by push_cast at h1; linarith) (by push_cast at h2; linarith)
  · exact compass_point_band11 q (by push_cast at h1; linarith) (by push_cast at h2; linarith)
  · exact compass_point_band12 q (by push_cast at h1; linarith) (by push_cast at h2; linarith)
  · exact compass_point_band13 q (by push_cast at h1; linarith) (by push_cast at h2; linarith)
  · exact compass_point_band14 q (by push_cast at h1; linarith) (by push_cast at h2; linarith)
  · exact compass_point_band15 q (by push_cast at h1; linarith) (by push_cast at h2; linarith)

/-- C1 witness: the partition theorem instantiated at the three example
headings — 202 lands in sector 8 (South), 0 in sector 0 (North), and 359.9
in sector 15 (NorthNorthWest). -/
theorem C1_compass_partition_witness :
    WindDirection.compass_point ⟨F.fin 202⟩ = CompassPoint.South ∧
    WindDirection.compass_point ⟨F.fin 0⟩ = CompassPoint.North ∧
    WindDirection.compass_point ⟨F.fin 359.9⟩ = CompassPoint.NorthNorthWest :=
  ⟨C1_compass_partition 202 8 (by norm_num) (by norm_num) (by norm_num),
   C1_compass_partition 0 0 (by norm_num) (by norm_num) (by norm_num),
   C1_compass_partition 359.9 15 (by norm_num) (by norm_num) (by norm_num)⟩

/-- C1 counterexample: the original claim asserts `compass_point 202 =
SouthSouthWest`, but the code's `180.0..202.5 => South` arm matches 202
(202 < 202.5), so the result is South, which is not SouthSouthWest. -/
theorem C1_compass_202_counterexample :
    WindDirection.compass_point ⟨F.fin 202⟩ = CompassPoint.South ∧
    CompassPoint.South ≠ CompassPoint.SouthSouthWest := by
  refine ⟨?_, by decide⟩
  norm_num [WindDirection.compass_point]

/-- Positivity of the binary32 ulp. -/
lemma ulp32_pos (q : ℚ) : 0 < ulp32 q := zpow_pos (by norm_num) _

/-- A value that already sits on its own binary32 grid is a fixed point of
rounding. -/
lemma round32_eq_self (q : ℚ) (m : ℤ) (hm : q = m * ulp32 q) : round32 q = q := by
  have hu : 0 < ulp32 q := ulp32_pos q
  have hn : ⌊q / ulp32 q⌋ = m := by
    have hqu : q / ulp32 q = (m : ℚ) := by
      nth_rewrite 1 [hm]
      rw [mul_div_cancel_right₀ _ (ne_of_gt hu)]
    rw [hqu, Int.floor_intCast]
  simp only [round32, hn, ← hm]
  rw [if_pos (by simpa using hu)]

/-- Every rounding result is an integer multiple of the input's ulp. -/
lemma round32_isMultiple (q : ℚ) : ∃ m : ℤ, round32 q = m * ulp32 q := by
  simp only [round32]
  split_ifs with h1 h2 h3
  · exact ⟨⌊q / ulp32 q⌋, rfl⟩
  · exact ⟨⌊q / ulp32 q⌋ + 1, by push_cast; ring⟩
  · exact ⟨⌊q / ulp32 q⌋, rfl⟩
  · exact ⟨⌊q / ulp32 q⌋ + 1, by push_cast; ring⟩

/-- An integer multiple of `2^a` is also an integer multiple of the finer
grid `2^b` whenever `b ≤ a`. -/
lemma int_mul_zpow_of_le (q : ℚ) (m a b : ℤ) (hq : q = m * 2 ^ a) (hba : b ≤ a) :
    ∃ k : ℤ, q = k * 2 ^ b := by
  refine ⟨m * 2 ^ (a - b).toNat, ?_⟩
  have hab : ((a - b).toNat : ℤ) = a - b := Int.toNat_of_nonneg (by omega)
  rw [hq]
  push_cast
  rw [mul_assoc, ← zpow_natCast (2:ℚ) (a - b).toNat, hab,
    ← zpow_add₀ (by norm_num : (2:ℚ) ≠ 0), sub_add_cancel]

/-- A positive value lying on the grid `2^a` and below `2^(a+24)` is exactly
representable in binary32, hence a fixed point of rounding. -/
lemma round32_eq_self_of_grid (q : ℚ) (m a : ℤ) (hq : q = m * 2 ^ a)
    (hpos : 0 < q) (hbound : q < 2 ^ (a + 24)) : round32 q = q := by
  have hlog : Int.log 2 q ≤ a + 23 := by
    have hb : Int.log 2 q < a + 24 := by
      refine (Int.lt_zpow_iff_log_lt (by norm_num) hpos).mp ?_
      exact_mod_cast hbound
    omega
  obtain ⟨k, hk⟩ := int_mul_zpow_of_le q m a (Int.log 2 q - 23) hq (by omega)
  exact round32_eq_self q k (by rw [ulp32]; exact hk)

/-- Zero is a fixed point of rounding. -/
lemma round32_zero : round32 0 = 0 := by
  have hu : (0:ℚ) < ulp32 0 := ulp32_pos 0
  simp only [round32]
  rw [zero_div, Int.floor_zero]
  simp [hu]

/-- The Sterbenz instance used by `blowing_towards`: when a binary32 value
`s` in `[360, 540)` has 360 subtracted from it, the exact difference is
itself representable in binary32, so the f32 subtraction does not round. -/
lemma round32_sub_360 (s : ℚ) (hge : 360 ≤ s) (hlt : s < 540)
    (hrep : round32 s = s) : round32 (s - 360) = s - 360 := by
  rcases eq_or_lt_of_le hge with heq | hgt
  · rw [← heq]
    norm_num [round32_zero]
  · obtain ⟨m, hm⟩ := round32_isMultiple s
    rw [hrep] at hm
    rw [ulp32] at hm
    have hE : (8:ℤ) ≤ Int.log 2 s := by
      have hq : (0:ℚ) < s := by linarith
      refine (Int.zpow_le_iff_le_log (by norm_num) hq).mp ?_
      push_cast
      norm_num
      linarith
    obtain ⟨k, hk⟩ := int_mul_zpow_of_le s m _ (-15) hm (by omega)
    have hdiff : s - 360 = ((k - 11796480 : ℤ) : ℚ) * 2 ^ (-15 : ℤ) := by
      rw [hk]
      push_cast
      have h2 : (2:ℚ) ^ (-15:ℤ) = 1/32768 := by norm_num
      rw [h2]
      ring
    refine round32_eq_self_of_grid (s - 360) (k - 11796480) (-15) hdiff (by linarith) ?_
    have h9 : ((-15:ℤ) + 24) = 9 := by norm_num
    rw [h9]
    have h512 : (2:ℚ) ^ (9:ℤ) = 512 := by norm_num
    rw [h512]
    linarith

/-- C2 (amended): for every valid heading `h` in `[0, 360)` whose f32 sum
`h + 180.0` is exact (incurs no rounding — in particular every heading on
the `2^-14` grid, which includes every integral heading the weather API
reports), `blowing_towards h` equals `compass_point ((h + 180) mod 360)`,
the 180-degree rotation of `compass_point`.  The subsequent f32 subtraction
of 360 is then always exact (`round32_sub_360`), so no further hypothesis
is needed.  At headings where the sum does round the identity can fail:
see the counterexample at `h = 22.5 - 2^-19`. -/
theorem C2_blowing_towards_rotation (q : ℚ) (h0 : 0 ≤ q) (h1 : q < 360)
    (hexact : round32 (q + 180) = q + 180) :
    WindDirection.blowing_towards ⟨F.fin q⟩ =
      WindDirection.compass_point ⟨F.fin (rmod (q + 180) 360)⟩ := by
  have key : rmod (q + 180) 360 = if 360 ≤ q + 180 then q + 180 - 360 else q + 180 := by
    rcases le_or_lt 360 (q + 180) with h | h
    · rw [if_pos h]
      have hfl : ⌊(q + 180) / 360⌋ = 1 := by
        rw [Int.floor_eq_iff]
        constructor
        · rw [le_div_iff₀ (by norm_num)]
          push_cast
          linarith
        · rw [div_lt_iff₀ (by norm_num)]
          push_cast
          linarith
      rw [rmod, hfl]
      push_cast
      ring
    · rw [if_neg (not_le.mpr h)]
      have hfl : ⌊(q + 180) / 360⌋ = 0 := by
        rw [Int.floor_eq_iff]
        constructor
        · positivity
        · rw [div_lt_iff₀ (by norm_num)]
          push_cast
          linarith
      rw [rmod, hfl]
      push_cast
      ring
  simp only [WindDirection.blowing_towards, F.add32, hexact, F.ge, F.sub32]
  rw [key, apply_ite F.fin]
  split_ifs with hb
  · rw [round32_sub_360 (q + 180) hb (by linarith) hexact]
  · rfl

/-- C2 witness: the rotation identity instantiated at heading 202, whose
f32 sum 382 is exactly representable (an integer below `2^24`). -/
theorem C2_blowing_towards_rotation_witness :
    WindDirection.blowing_towards ⟨F.fin 202⟩ =
      WindDirection.compass_point ⟨F.fin (rmod (202 + 180) 360)⟩ :=
  C2_blowing_towards_rotation 202 (by norm_num) (by norm_num)
    (by
      have hs : (202:ℚ) + 180 = 382 := by norm_num
      rw [hs]
      exact round32_eq_self_of_grid 382 382 0 (by norm_num) (by norm_num) (by norm_num))

/-- C2 counterexample: the heading `h = 22.5 - 2^-19 = 11796479/524288` is a
valid binary32 value (significand 11796479 < 2^24, ulp `2^-19` on `[16, 32)`)
accepted by `new_checked`, but the f32 sum `h + 180.0` rounds up to 202.5
(the exact sum `202.5 - 2^-19` lies `2^-19` below the grid point 202.5 and
`7 * 2^-19` above its lower neighbour on the `2^-16` grid of `[128, 256)`), so
`blowing_towards` classifies 202.5 as SouthSouthWest, while the exact
`(h + 180) mod 360 = 202.5 - 2^-19` classifies as South.  This refutes the
original claim that `blowing_towards h = compass_point ((h + 180) mod 360)`
for every valid heading. -/
theorem C2_rounding_counterexample :
    WindDirection.new_checked (F.fin (11796479/524288)) =
      .ok ⟨F.fin (11796479/524288)⟩ ∧
    WindDirection.blowing_towards ⟨F.fin (11796479/524288)⟩ =
      CompassPoint.SouthSouthWest ∧
    WindDirection.compass_point ⟨F.fin (rmod (11796479/524288 + 180) 360)⟩ =
      CompassPoint.South ∧
    CompassPoint.SouthSouthWest ≠ CompassPoint.South := by
  have hsum : (11796479:ℚ)/524288 + 180 = 106168319/524288 := by norm_num
  have hulp : ulp32 ((106168319:ℚ)/524288) = 2^(-16:ℤ) := by
    rw [ulp32]
    have hlog : Int.log 2 ((106168319:ℚ)/524288) = 7 := by
      have hq : (0:ℚ) < 106168319/524288 := by norm_num
      have hle : ((2:ℕ):ℚ)^(7:ℤ) ≤ 106168319/524288 := by push_cast; norm_num
      have hlt2 : (106168319:ℚ)/524288 < ((2:ℕ):ℚ)^(8:ℤ) := by push_cast; norm_num
      have ha := (Int.zpow_le_iff_le_log (by norm_num) hq).mp hle
      have hb := (Int.lt_zpow_iff_log_lt (by norm_num) hq).mp hlt2
      omega
    rw [hlog]
    norm_num
  have hfloor : ⌊(106168319:ℚ)/524288 / 2^(-16:ℤ)⌋ = 13271039 := by
    have hdiv : (106168319:ℚ)/524288 / 2^(-16:ℤ) = 106168319/8 := by norm_num
    rw [hdiv, Int.floor_eq_iff]
    constructor
    · norm_num
    · norm_num
  have hround : round32 ((106168319:ℚ)/524288) = 202.5 := by
    simp only [round32, hulp, hfloor]
    rw [if_neg (by push_cast; norm_num), if_pos (by push_cast; norm_num)]
    push_cast
    norm_num
  refine ⟨?_, ?_, ?_, by decide⟩
  · norm_num [WindDirection.new_checked, F.lt, F.ge]
  · simp only [WindDirection.blowing_towards, F.add32, hsum, hround]
    rw [if_neg (by norm_num [F.ge])]
    norm_num [WindDirection.compass_point]
  · have hr : rmod ((11796479:ℚ)/524288 + 180) 360 = 106168319/524288 := by
      rw [hsum, rmod]
      have hfl : ⌊(106168319:ℚ)/524288 / 360⌋ = 0 := by
        rw [Int.floor_eq_iff]
        constructor
        · norm_num
        · norm_num
      rw [hfl]
      norm_num
    rw [hr]
    norm_num [WindDirection.compass_point]

/-- C3: over finite (non-NaN) degree values, `WindDirection::new_checked`
fails with `InvalidDirection deg` for every `deg` outside `[0, 360)`
(360 itself included) and succeeds, wrapping `deg` unchanged, for every
`deg` in `[0, 360)`. -/
theorem C3_wind_new_checked (q : ℚ) :
    ((q < 0 ∨ 360 ≤ q) →
      WindDirection.new_checked (F.fin q) =
        .error (.InvalidDirection (F.fin q))) ∧
    (0 ≤ q ∧ q < 360 →
      WindDirection.new_checked (F.fin q) = .ok ⟨F.fin q⟩) := by
  constructor
  · intro h
    simp only [WindDirection.new_checked, F.lt, F.ge]
    rw [if_pos h]
  · rintro ⟨hlo, hhi⟩
    simp only [WindDirection.new_checked, F.lt, F.ge]
    rw [if_neg (by rintro (h | h) <;> linarith)]

/-- C3 witness: 360 is rejected with `InvalidDirection 360`; 202 is
accepted and wrapped unchanged. -/
theorem C3_wind_new_checked_witness :
    WindDirection.new_checked (F.fin 360) =
      .error (.InvalidDirection (F.fin 360)) ∧
    WindDirection.new_checked (F.fin 202) = .ok ⟨F.fin 202⟩ :=
  ⟨(C3_wind_new_checked 360).1 (by norm_num),
   (C3_wind_new_checked 202).2 (by norm_num)⟩

/-- C9: `WindDirection::new_checked` accepts NaN — NaN satisfies neither
`deg < 0.0` nor `deg >= 360.0` under IEEE comparisons — and `compass_point`
on the resulting NaN-valued direction returns NorthNorthWest through the
catch-all match arm. -/
theorem C9_nan_wind_direction :
    WindDirection.new_checked F.nan = .ok ⟨F.nan⟩ ∧
    WindDirection.compass_point ⟨F.nan⟩ = CompassPoint.NorthNorthWest := by
  constructor
  · simp [WindDirection.new_checked, F.lt, F.ge]
  · rfl

/-- C4: for every finite latitude outside `[-90, 90]` and every longitude
value whatsoever (finite in or out of range, or NaN),
`GeodeticCoords::new_checked` fails with `LatitudeOutOfRange` carrying
exactly that latitude — the latitude check short-circuits before the
longitude is ever examined. -/
theorem C4_latitude_checked_first (lat : ℚ) (lon : F)
    (h : lat < -90 ∨ 90 < lat) :
    GeodeticCoords.new_checked (F.fin lat) lon =
      .error (.LatitudeOutOfRange (F.fin lat)) := by
  simp only [GeodeticCoords.new_checked, F.lt, F.gt]
  rw [if_pos h]

/-- C4 witness: latitude 180 with the out-of-range longitude 190 reports
only the latitude error. -/
theorem C4_latitude_checked_first_witness :
    GeodeticCoords.new_checked (F.fin 180) (F.fin 190) =
      .error (.LatitudeOutOfRange (F.fin 180)) :=
  C4_latitude_checked_first 180 (F.fin 190) (by norm_num)

/-- C5: for every finite latitude in `[-90, 90]` and finite longitude in
`[-180, 180]` (bounds inclusive), `GeodeticCoords::new_checked` succeeds
and the returned coordinate carries exactly the input values. -/
theorem C5_coords_roundtrip (lat lon : ℚ)
    (hlat : -90 ≤ lat ∧ lat ≤ 90) (hlon : -180 ≤ lon ∧ lon ≤ 180) :
    GeodeticCoords.new_checked (F.fin lat) (F.fin lon) =
      .ok ⟨F.fin lat, F.fin lon⟩ := by
  obtain ⟨ha, hb⟩ := hlat
  obtain ⟨hc, hd⟩ := hlon
  simp only [GeodeticCoords.new_checked, F.lt, F.gt]
  rw [if_neg (by rintro (h | h) <;> linarith),
      if_neg (by rintro (h | h) <;> linarith)]

/-- C5 witness: the valid coordinate (33, -117) from the repository's own
test round-trips exactly. -/
theorem C5_coords_roundtrip_witness :
    GeodeticCoords.new_checked (F.fin 33) (F.fin (-117)) =
      .ok ⟨F.fin 33, F.fin (-117)⟩ :=
  C5_coords_roundtrip 33 (-117) (by norm_num) (by norm_num)

/-- C10: `GeodeticCoords::new_checked` accepts NaN coordinates — a NaN
latitude (with any in-range finite longitude) and a NaN longitude (with any
in-range finite latitude) both pass, because NaN satisfies neither side of
either out-of-range comparison, and the NaN is stored as-is. -/
theorem C10_nan_coords_accepted (lat lon : ℚ)
    (hlat : -90 ≤ lat ∧ lat ≤ 90) (hlon : -180 ≤ lon ∧ lon ≤ 180) :
    GeodeticCoords.new_checked F.nan (F.fin lon) = .ok ⟨F.nan, F.fin lon⟩ ∧
    GeodeticCoords.new_checked (F.fin lat) F.nan = .ok ⟨F.fin lat, F.nan⟩ := by
  obtain ⟨ha, hb⟩ := hlat
  obtain ⟨hc, hd⟩ := hlon
  constructor
  · simp only [GeodeticCoords.new_checked, F.lt, F.gt]
    rw [if_neg (by rintro (h | h) <;> exact h),
        if_neg (by rintro (h | h) <;> linarith)]
  · simp only [GeodeticCoords.new_checked, F.lt, F.gt]
    rw [if_neg (by rintro (h | h) <;> linarith),
        if_neg (by rintro (h | h) <;> exact h)]

/-- C10 witness: NaN latitude with longitude -117, and latitude 33 with NaN
longitude, are both accepted and stored unchanged. -/
theorem C10_nan_coords_accepted_witness :
    GeodeticCoords.new_checked F.nan (F.fin (-117)) =
      .ok ⟨F.nan, F.fin (-117)⟩ ∧
    GeodeticCoords.new_checked (F.fin 33) F.nan = .ok ⟨F.fin 33, F.nan⟩ :=
  C10_nan_coords_accepted 33 (-117) (by norm_num) (by norm_num)

/-- C6: whenever the response body parses as JSON (`from_str` succeeds with
value `v`) but fails to map onto the typed shape (`from_value v` fails with
`e`), the pipeline returns `ResponseParseError` carrying both the original
untyped JSON value `v` and the underlying mapping error `e`; and that error
is distinct from every not-valid-JSON `MalformedResponseError` value. -/
theorem C6_shape_error_carries_json (α : Type)
    (from_str : String → Except String Json)
    (from_value : Json → Except String α)
    (text : String) (v : Json) (e : String)
    (hstr : from_str text = .ok v) (hval : from_value v = .error e) :
    open_weather_parse from_str from_value text =
      .error (.ResponseParseError v e) ∧
    ∀ e2, OpenWxError.ResponseParseError v e ≠
      OpenWxError.MalformedResponseError e2 := by
  constructor
  · simp only [open_weather_parse, hstr, hval]
  · intro e2 hcontra
    exact OpenWxError.noConfusion hcontra

/-- C6 witness: a body that parses to a JSON object with no `main` field,
fed to a shape mapper that requires `main`, produces `ResponseParseError`
carrying that object and the mapping error. -/
theorem C6_shape_error_carries_json_witness :
    open_weather_parse (fun _ => Except.ok (Json.obj [("coord", Json.obj [])]))
      (fun j => match j.getField "main" with
        | some _ => Except.ok ()
        | none => Except.error "missing field main")
      "body" =
      .error (.ResponseParseError (Json.obj [("coord", Json.obj [])])
        "missing field main") ∧
    ∀ e2, OpenWxError.ResponseParseError (Json.obj [("coord", Json.obj [])])
      "missing field main" ≠ OpenWxError.MalformedResponseError e2 :=
  C6_shape_error_carries_json Unit
    (fun _ => Except.ok (Json.obj [("coord", Json.obj [])]))
    (fun j => match j.getField "main" with
      | some _ => Except.ok ()
      | none => Except.error "missing field main")
    "body" (Json.obj [("coord", Json.obj [])]) "missing field main" rfl rfl

/-- C7: during response mapping, the raw integer seconds-offset-from-UTC is
converted by `from_utc_shift` into a fixed UTC-offset value: the conversion
succeeds exactly when the magnitude is a representable timezone offset
(strictly less than 86400 seconds, i.e. one day), and otherwise fails the
parse with the custom serde error. -/
theorem C7_utc_shift_conversion (tz : Int) :
    (-86400 < tz ∧ tz < 86400 → from_utc_shift tz = .ok ⟨tz⟩) ∧
    (tz ≤ -86400 ∨ 86400 ≤ tz →
      from_utc_shift tz = .error "invalid timezone shift from UTC") := by
  constructor
  · intro h
    simp only [from_utc_shift, FixedOffset.east_opt]
    rw [if_pos h]
  · intro h
    simp only [from_utc_shift, FixedOffset.east_opt]
    rw [if_neg (by rcases h with h | h <;> rintro ⟨ha, hb⟩ <;> omega)]

/-- C7 witness: the sample document's offset 3600 converts to the +1-hour
fixed offset, while 100000 seconds (more than a day) fails the parse. -/
theorem C7_utc_shift_conversion_witness :
    from_utc_shift 3600 = .ok ⟨3600⟩ ∧
    from_utc_shift 100000 = .error "invalid timezone shift from UTC" :=
  ⟨(C7_utc_shift_conversion 3600).1 (by norm_num),
   (C7_utc_shift_conversion 100000).2 (by norm_num)⟩

/-- C8: for every constructed snapshot, `sunrise_local` and `sunset_local`
are pure total functions returning the stored UTC sunrise and sunset
instants re-expressed in the snapshot's own validated UTC offset: the
absolute instant is unchanged and the attached offset is the snapshot's
timezone; when the snapshot's timezone is the +1-hour offset (3600 seconds,
as in the sample document), the local wall-clock time is exactly one hour
ahead of the UTC instant. -/
theorem C8_local_sun_times (r : OWCurrentWeatherResponse) :
    (r.sunrise_local.timestamp = r.sys.sunrise.timestamp ∧
     r.sunrise_local.offset = r.timezone) ∧
    (r.sunset_local.timestamp = r.sys.sunset.timestamp ∧
     r.sunset_local.offset = r.timezone) ∧
    (r.timezone = ⟨3600⟩ →
      r.sunrise_local.localCivilSeconds = r.sys.sunrise.timestamp + 3600 ∧
      r.sunset_local.localCivilSeconds = r.sys.sunset.timestamp + 3600) := by
  refine ⟨⟨rfl, rfl⟩, ⟨rfl, rfl⟩, fun h => ⟨?_, ?_⟩⟩
  · simp [OWCurrentWeatherResponse.sunrise_local, DateTimeUtc.with_timezone,
      DateTimeFixed.localCivilSeconds, h]
  · simp [OWCurrentWeatherResponse.sunset_local, DateTimeUtc.with_timezone,
      DateTimeFixed.localCivilSeconds, h]

/-- C8 witness: on the sample document (timezone 3600, sunrise 1763100641,
sunset 1763135429) the local sunrise and sunset wall-clock times are one
hour ahead of the stored UTC instants. -/
theorem C8_local_sun_times_witness :
    sampleResponse.sunrise_local.localCivilSeconds = 1763100641 + 3600 ∧
    sampleResponse.sunset_local.localCivilSeconds = 1763135429 + 3600 :=
  ⟨((C8_local_sun_times sampleResponse).2.2 rfl).1,
   ((C8_local_sun_times sampleResponse).2.2 rfl).2⟩

end OpenWx
